import Mathlib

/-!
# Verification of the weekly_report processing pipeline

Shallow embedding of the `weekly_report` Python package
(`processing.py`, `kpis.py`, `report.py`, `pipeline.py`) and proofs
about it.  Tables are modelled as a list of column names plus a list of
rows, where a row is an association list from column name to a cell
value; fallible Python code is modelled with `Except`.
-/

namespace WeeklyReport

/-- A cell value of a loaded table.  `na` is a missing value (pandas `NA`/`NaN`);
`fnum k` is the float with integral value `k` (floats in the survey data are
whole-valued flag encodings such as `1.0`; Python renders them as `"1.0"`). -/
inductive Val where
  | s (x : String)
  | b (x : Bool)
  | n (x : Int)
  | fnum (x : Int)
  | na
deriving DecidableEq

/-- Python `str()` / pandas `astype("string")` rendering of a cell value. -/
def pyStr : Val → String
  | .s x => x
  | .b true => "True"
  | .b false => "False"
  | .n x => toString x
  | .fnum x => toString x ++ ".0"
  | .na => "<NA>"

/-- Python `str.strip()`: remove leading and trailing whitespace. -/
def stripStr (s : String) : String :=
  ⟨((s.toList.dropWhile Char.isWhitespace).reverse.dropWhile Char.isWhitespace).reverse⟩

/-- Python `str.lower()`: lowercase every character. -/
def lowerStr (s : String) : String := ⟨s.toList.map Char.toLower⟩

/-- A row: association list from column name to cell value. -/
abbrev Row := List (String × Val)

/-- An in-memory table (`pandas.DataFrame`): column names plus rows in
original file order. -/
structure DF where
  cols : List String
  rows : List Row
deriving DecidableEq

/-- `config.ColumnMap`: names of the semantic columns (config.py lines 9-16). -/
structure ColumnMap where
  service_col : String
  region_col : String
  satisfied_col : String
  recommend_col : String
  date_col : Option String := none
  respondent_id_col : Option String := none
deriving DecidableEq

/-- The values of one column (`df[c]`), for rows that carry the column. -/
def colValues (df : DF) (c : String) : List Val :=
  df.rows.filterMap (fun r => r.lookup c)

/-- Python exceptions that the embedded code can raise. -/
inductive PyErr where
  | attributeError (msg : String)
  | typeError (msg : String)
  | keyError (msg : String)
  /-- The `KeyError` raised by `_validate_columns` (processing.py line 80),
  whose message reports the missing columns and the available columns. -/
  | missingColumns (missing : List String) (available : List String)
deriving DecidableEq

instance {ε α : Type} [DecidableEq ε] [DecidableEq α] : DecidableEq (Except ε α) := fun a b =>
  match a, b with
  | .error e, .error f =>
    if h : e = f then isTrue (congrArg Except.error h)
    else isFalse (fun hc => h (Except.error.inj hc))
  | .ok x, .ok y =>
    if h : x = y then isTrue (congrArg Except.ok h)
    else isFalse (fun hc => h (Except.ok.inj hc))
  | .error _, .ok _ => isFalse (fun hc => Except.noConfusion hc)
  | .ok _, .error _ => isFalse (fun hc => Except.noConfusion hc)

/-- Rendering of an exception to the message text interpolated by the
orchestrator's `f"... {e}"` strings. -/
def pyErrMsg : PyErr → String
  | .attributeError m => m
  | .typeError m => m
  | .keyError m => m
  | .missingColumns m a =>
      "Missing required columns " ++ String.intercalate ", " m ++
      ". Available: " ++ String.intercalate ", " a

/-- `YES` (processing.py line 16). -/
def YES : List String := ["yes", "y", "true", "t", "1"]

/-- `NO` (processing.py line 17). -/
def NO : List String := ["no", "n", "false", "f", "0"]

/-- `_normalize_yes_no` (processing.py lines 49-64) as it executes: line 50
computes the stripped lowercase strings, then line 57 evaluates `pd.Na` —
an attribute that does not exist on the pandas module (the function's own
comments document `pd.NA`) — so the function raises `AttributeError` on every
input, before the `YES`/`NO` masks of lines 61-62 ever run. -/
def _normalize_yes_no (xs : List Val) : Except PyErr (List Val) :=
  let _s_str := xs.map (fun v => lowerStr (stripStr (pyStr v)))
  .error (.attributeError "module pandas has no attribute Na")

/-- One run of `collapse` over a character list; the flag records whether the
previous character was whitespace (so runs collapse to one space). -/
def collapseAux : Bool → List Char → List Char
  | _, [] => []
  | prevWs, c :: rest =>
    if c.isWhitespace then
      if prevWs then collapseAux true rest else ' ' :: collapseAux true rest
    else c :: collapseAux false rest

/-- `str.replace(r"\s+", " ", regex=True)`: collapse whitespace runs to one space. -/
def collapseWs (s : String) : String := ⟨collapseAux false s.toList⟩

/-- One run of Python `str.title()`; the flag records whether the previous
character was alphabetic (word starts are uppercased, the rest lowercased). -/
def titleAux : Bool → List Char → List Char
  | _, [] => []
  | prevAlpha, c :: rest =>
    if c.isAlpha then
      (if prevAlpha then c.toLower else c.toUpper) :: titleAux true rest
    else c :: titleAux false rest

/-- Python `str.title()`. -/
def titleStr (s : String) : String := ⟨titleAux false s.toList⟩

/-- `_normalize_text` (processing.py lines 33-47): cast to string, strip,
collapse internal whitespace runs, title-case.  Missing values stay missing
(`astype("string")` preserves `NA`). -/
def _normalize_text (v : Val) : Val :=
  match v with
  | .na => .na
  | _ => .s (titleStr (collapseWs (stripStr (pyStr v))))

/-- `required` (processing.py line 75): the four required semantic columns. -/
def required_cols (cm : ColumnMap) : List String :=
  [cm.service_col, cm.region_col, cm.satisfied_col, cm.recommend_col]

/-- `_validate_columns` (processing.py lines 73-80): collect the required
columns that are absent from the frame and raise when any are, with an error
reporting the missing and the available columns. -/
def _validate_columns (df : DF) (cm : ColumnMap) : Except PyErr Unit :=
  let missing := (required_cols cm).filter (fun c => decide (c ∉ df.cols))
  if missing.isEmpty then .ok () else .error (.missingColumns missing df.cols)

/-- Apply `f` to the cells of column `c` (`df[c] = f(df[c])`). -/
def mapCol (df : DF) (c : String) (f : Val → Val) : DF :=
  ⟨df.cols, df.rows.map (fun r => r.map (fun p => if p.1 = c then (p.1, f p.2) else p))⟩

/-- `clean_df` (processing.py lines 82-107) as it executes: validate (line 84),
title-case service and region (lines 88-89), then `_normalize_yes_no` on the
satisfied column (line 92) raises `AttributeError` because of the `pd.Na`
misspelling at line 57.  Were that reached past, lines 95-99 (date parse,
dropna) raise nothing, and line 103 then unconditionally dereferences the
misspelled Series attribute `.srt` (the parallel line 104 spells `.str`), so
the tail of the function is the `AttributeError` for `.srt`. -/
def clean_df (df : DF) (cm : ColumnMap) : Except PyErr DF := do
  _validate_columns df cm
  let df1 := mapCol df cm.service_col _normalize_text
  let df2 := mapCol df1 cm.region_col _normalize_text
  let _sat ← _normalize_yes_no (colValues df2 cm.satisfied_col)
  let _recs ← _normalize_yes_no (colValues df2 cm.recommend_col)
  .error (.attributeError "Series object has no attribute srt")

/-- The duplicate-detection key of a row for a `subset` of columns. -/
def rowKey (subset : List String) (r : Row) : List (Option Val) :=
  subset.map (fun c => r.lookup c)

/-- `DataFrame.drop_duplicates(subset=s, keep="last")` on the rows: keep a row
exactly when no later row has the same key, preserving the original order. -/
def keepLast {α κ : Type} [DecidableEq κ] (key : α → κ) : List α → List α
  | [] => []
  | r :: rs =>
    if (rs.any fun x => decide (key x = key r)) = true then keepLast key rs
    else r :: keepLast key rs

/-- `DataFrame.drop_duplicates(subset=subset, keep="last")`: raises `KeyError`
when a subset column is absent from the frame, otherwise keeps, in original
order, the last row of every duplicate-key group. -/
def drop_duplicates (df : DF) (subset : List String) : Except PyErr DF :=
  if (subset.all fun c => decide (c ∈ df.cols)) = true then
    .ok ⟨df.cols, keepLast (rowKey subset) df.rows⟩
  else
    .error (.keyError "subset columns not found in frame")

/-- The fallback identity key of `dedupe_df` (processing.py lines 128-130):
the four semantic columns, prefixed by the date column when it is configured
(a non-empty name, Python truthiness) and present. -/
def fallback_subset (cm : ColumnMap) (cols : List String) : List String :=
  let subset := [cm.service_col, cm.region_col, cm.satisfied_col, cm.recommend_col]
  match cm.date_col with
  | some d => if d ≠ "" ∧ d ∈ cols then d :: subset else subset
  | none => subset

/-- The identity key selected by `dedupe_df` (processing.py lines 116-130),
written as a function of the column map and the frame's columns: the nested
early returns of the source become the nested conditionals here.  A column is
"configured" when the optional name is set and non-empty (Python truthiness of
`cm.respondent_id_col` / `cm.date_col`) and "present" when it is among the
frame's columns. -/
def dedupeSubset (cm : ColumnMap) (cols : List String) : List String :=
  match cm.respondent_id_col with
  | some rid =>
    if rid ≠ "" ∧ rid ∈ cols then
      match cm.date_col with
      | some d => if d ≠ "" ∧ d ∈ cols then [rid, d] else [rid]
      | none => [rid]
    else fallback_subset cm cols
  | none => fallback_subset cm cols

/-- `dedupe_df` (processing.py lines 109-132): drop duplicates by the selected
identity key, keeping the last occurrence. -/
def dedupe_df (df : DF) (cm : ColumnMap) : Except PyErr DF :=
  drop_duplicates df (dedupeSubset cm df.cols)

/-- `ProcessResult` (processing.py lines 20-23). -/
structure FileSummary where
  filename : String
  raw_rows : Nat
  raw_cols : Nat
  clean_rows : Nat
  clean_cols : Nat
deriving DecidableEq

/-- `ProcessResult` (processing.py lines 20-23): the combined frame and the
per-file summaries (modelled as a list of summary records). -/
structure ProcessResult where
  combined : DF
  file_summaries : List FileSummary
deriving DecidableEq

/-- `pd.concat(frames, ignore_index=True)` for frames of a common schema. -/
def concatDF (l : List DF) : DF :=
  ⟨(l.head?.map DF.cols).getD [], (l.map DF.rows).flatten⟩

/-- The per-file loop of `process_files` (processing.py lines 140-161):
clean then dedupe each loaded frame, recording a summary row. -/
def processEach (cm : ColumnMap) : List (String × DF) → Except PyErr (List (DF × FileSummary))
  | [] => .ok []
  | (nm, raw) :: rest => do
    let cleaned ← clean_df raw cm
    let deduped ← dedupe_df cleaned cm
    let tail ← processEach cm rest
    .ok ((deduped, ⟨nm, raw.rows.length, raw.cols.length, deduped.rows.length, deduped.cols.length⟩) :: tail)

/-- `process_files` (processing.py lines 136-172), taking the already-loaded
frames (`_read_any` is file I/O): per-file clean and dedupe, concatenation
(an empty frame when there were no files), and the final cross-file dedupe,
skipped when the combined frame is empty. -/
def process_files (inputs : List (String × DF)) (cm : ColumnMap) : Except PyErr ProcessResult := do
  let pairs ← processEach cm inputs
  let combined := if pairs.isEmpty then (⟨[], []⟩ : DF) else concatDF (pairs.map Prod.fst)
  let combined ← if combined.rows.isEmpty then pure combined else dedupe_df combined cm
  .ok ⟨combined, pairs.map Prod.snd⟩

/-- `KPIResult` (kpis.py lines 15-21); the first field keeps the source's
misspelled name `total_reponses` (its constructor call sites and `kpi_to_dict`
spell `total_responses`). -/
structure KPIResult where
  total_reponses : Nat
  satisfaction_rate : Option ℚ
  recommendation_rate : Option ℚ
  most_used_service : Option String
  top_region : Option String
deriving DecidableEq

/-- `Series.mean()` of a pandas boolean column: the fraction of `True` among
the resolved (non-missing) entries, undefined when none are resolved. -/
def boolMean (vs : List Val) : Option ℚ :=
  let resolved := vs.filterMap (fun v => match v with | .b x => some x | _ => none)
  if resolved.isEmpty then none
  else some ((resolved.count true : ℚ) / (resolved.length : ℚ))

/-- `Series.value_counts().idxmax()`: a value of maximal occurrence count
(first-seen tie-break; the source's tie-break is unspecified). -/
def modeFirst (vs : List Val) : Option Val :=
  vs.foldl
    (fun best v =>
      match best with
      | none => some v
      | some b => if vs.count v > vs.count b then some v else best)
    none

/-- `compute_kpis` (kpis.py lines 23-42) as it executes: a zero-row frame
returns the all-undefined result positionally (line 27); otherwise the rates
and modes are computed (lines 29-34) and the `KPIResult` constructor call at
lines 36-42 raises `TypeError`, because its keywords `total_responses` and
`recommmendation_rate` match no field of the dataclass (whose fields are
`total_reponses` and `recommendation_rate`). -/
def compute_kpis (df : DF) (cm : ColumnMap) : Except PyErr KPIResult :=
  let total := df.rows.length
  if total = 0 then .ok ⟨0, none, none, none, none⟩
  else
    let _sat_rate := boolMean (colValues df cm.satisfied_col)
    let _rec_rate := boolMean (colValues df cm.recommend_col)
    let _most_used_service := modeFirst (colValues df cm.service_col)
    let _top_region := modeFirst (colValues df cm.region_col)
    .error (.typeError "KPIResult got an unexpected keyword argument total_responses")

/-- `ReportArtifacts` (report.py lines 16-21). -/
structure ReportArtifacts where
  run_stamp : String
  cleaned_csv : Option String
  kpi_json : Option String
  file_summary_csv : String
deriving DecidableEq

/-- The health record persisted by `monitor.write_health_file`: the OK/FAIL
flag and the message (the wall-clock timestamp prefix is elided). -/
structure HealthRec where
  ok : Bool
  message : String
deriving DecidableEq

/-- The file-system state the orchestrator touches: the health record (a
single overwritten file), the report artifact names written so far (in write
order), and the processed-files directory as name/content entries. -/
structure World where
  health : Option HealthRec
  written : List String
  processedDir : List (String × String)
deriving DecidableEq

/-- `monitor.write_health_file`: overwrite the health record. -/
def write_health_file (w : World) (ok : Bool) (message : String) : World :=
  { w with health := some ⟨ok, message⟩ }

/-- `write_reports` (report.py lines 28-59), with the run stamp — produced by
the single `_stamp()` call at line 38 — passed as a parameter: always write
the file-summary export; write the cleaned-data export and the KPI export
only when their switches are set; name every file `{basename}_{kind}_{stamp}`
with the appropriate extension; return the paths plus the stamp. -/
def write_reports (stamp basename : String) (_combined : DF)
    (_file_summaries : List FileSummary) (_kpis : KPIResult)
    (write_cleaned_csv write_kpi_json : Bool) (w : World) :
    World × ReportArtifacts :=
  let file_summary_path := basename ++ "_file_summary_" ++ stamp ++ ".csv"
  let w1 : World := { w with written := w.written ++ [file_summary_path] }
  let cleaned_csv_path : Option String :=
    if write_cleaned_csv then some (basename ++ "_cleaned_" ++ stamp ++ ".csv") else none
  let w2 : World := { w1 with written := w1.written ++ cleaned_csv_path.toList }
  let kpi_json_path : Option String :=
    if write_kpi_json then some (basename ++ "_kpis_" ++ stamp ++ ".json") else none
  let w3 : World := { w2 with written := w2.written ++ kpi_json_path.toList }
  (w3, ⟨stamp, cleaned_csv_path, kpi_json_path, file_summary_path⟩)

/-- The position of the last `'.'` in a character list, if any. -/
def lastDotIdx (cs : List Char) : Option Nat :=
  ((cs.enum.filter fun p => decide (p.2 = '.')).getLast?).map Prod.fst

/-- `Path.stem` and `Path.suffix`: split a file name at its last dot; there is
no suffix when the name has no dot, or the dot leads the name (hidden files),
or the dot ends it. -/
def splitStemSuffix (name : String) : String × String :=
  match lastDotIdx name.toList with
  | some i =>
    if 0 < i ∧ i < name.toList.length - 1
    then (⟨name.toList.take i⟩, ⟨name.toList.drop i⟩)
    else (name, "")
  | none => (name, "")

/-- `_move_file` (pipeline.py lines 19-35): move a file into a directory,
retargeting to `{stem}__dup{suffix}` when an entry with the source's name
already exists; in dry-run mode nothing moves.  Returns the directory
contents after the move and the destination name (`shutil.move` replaces an
existing entry at the destination name). -/
def _move_file (srcName srcContent : String) (destDir : List (String × String))
    (dry_run : Bool) : List (String × String) × String :=
  let dest :=
    if (destDir.lookup srcName).isSome then
      let p := splitStemSuffix srcName
      p.1 ++ "__dup" ++ p.2
    else srcName
  if dry_run then (destDir, dest)
  else ((destDir.filter fun e => decide (e.1 ≠ dest)) ++ [(dest, srcContent)], dest)

/-- The input-relocation loop of `run_pipeline` (pipeline.py lines 104-109):
move every processed input into the processed-files directory, in order. -/
def moveAll : List (String × String) → Bool → World → World
  | [], _, w => w
  | f :: fs, dry_run, w =>
    moveAll fs dry_run { w with processedDir := (_move_file f.1 f.2 w.processedDir dry_run).1 }

/-- The outcome dictionary returned by `run_pipeline` (pipeline.py); the
artifact-reference keys, absent on the early-return paths, are `Option`s. -/
structure RunOutcome where
  ok : Bool
  status : String
  message : String
  inputs_found : Nat
  inputs_processed : Nat
  run_stamp : Option String
  cleaned_csv : Option String
  kpi_json : Option String
  file_summary_csv : Option String
deriving DecidableEq

/-- `run_pipeline` (pipeline.py lines 38-170).  The discovered inputs, the
outcome of the processing stage (`process_files`, wrapped in try/except at
lines 88-100), the run stamp, and the outcome of the notification send (an
external collaborator, lines 145-150) enter as parameters; everything else
follows the source: the no-inputs early return (lines 62-76), the fatal
early return on a processing error (lines 90-100), input relocation
(lines 104-109), the KPI computation at line 120 — outside any try/except,
so its exception propagates out of the function (`Except.error`) — report
writing, the OK health record, and the notification try/except that
overwrites the health record but keeps the OK outcome. -/
def run_pipeline (cm : ColumnMap) (basename : String)
    (write_cleaned_csv write_kpi_json : Bool) :
    List (String × String) → Except PyErr ProcessResult → String →
    Except String Unit → Bool → World → World × Except String RunOutcome
  | [], _, _, _, _, w =>
    (write_health_file w true "No input files found. Nothing to do.",
     .ok ⟨true, "no_inputs", "No input files found. Nothing to do.", 0, 0,
          none, none, none, none⟩)
  | f :: fs, .error e, _, _, _, w =>
    let msg := "Fatal process error: " ++ pyErrMsg e
    (write_health_file w false msg,
     .ok ⟨false, "fatal", msg, (f :: fs).length, 0, none, none, none, none⟩)
  | f :: fs, .ok result, stamp, notifyRes, dry_run, w =>
    let w1 := moveAll (f :: fs) dry_run w
    match compute_kpis result.combined cm with
    | .error e => (w1, .error (pyErrMsg e))
    | .ok kpis =>
      let wr := write_reports stamp basename result.combined result.file_summaries
                  kpis write_cleaned_csv write_kpi_json w1
      let w3 := write_health_file wr.1 true "Run completed successfully."
      let w4 :=
        match notifyRes with
        | .error e => write_health_file w3 false ("Run OK but email failed: " ++ e)
        | .ok _ => w3
      (w4, .ok ⟨true, "ok", "Run completed successfully.", (f :: fs).length, (f :: fs).length,
                some wr.2.run_stamp, wr.2.cleaned_csv, wr.2.kpi_json,
                some wr.2.file_summary_csv⟩)

/-- A column map with only the four required roles, for concrete evaluations. -/
def exampleCM : ColumnMap := ⟨"service", "region", "satisfied", "recommend", none, none⟩

/-- A column map that also configures date and respondent-id columns. -/
def exampleCM2 : ColumnMap :=
  ⟨"service", "region", "satisfied", "recommend", some "date", some "rid"⟩

/-- A one-row survey table, for concrete evaluations. -/
def exampleDF : DF :=
  ⟨["service", "region", "satisfied", "recommend"],
   [[("service", .s " acme corp "), ("region", .s "north"),
     ("satisfied", .s "yes"), ("recommend", .s "no")]]⟩

/-- A table with a duplicated identity key under the fallback subset, for
concrete evaluations: rows 1 and 3 agree on all four key columns. -/
def exampleDupDF : DF :=
  ⟨["service", "region", "satisfied", "recommend"],
   [[("service", .s "A"), ("region", .s "N"), ("satisfied", .b true), ("recommend", .b true)],
    [("service", .s "B"), ("region", .s "N"), ("satisfied", .b true), ("recommend", .b true)],
    [("service", .s "A"), ("region", .s "N"), ("satisfied", .b true), ("recommend", .b true)]]⟩

/-- A table carrying respondent-id and date columns, with rows 1 and 2 sharing
the (rid, date) key and differing in region, for concrete evaluations. -/
def exampleRidDF : DF :=
  ⟨["rid", "date", "service", "region", "satisfied", "recommend"],
   [[("rid", .n 7), ("date", .s "2025-01-01"), ("service", .s "A"), ("region", .s "N"),
     ("satisfied", .b true), ("recommend", .b true)],
    [("rid", .n 7), ("date", .s "2025-01-01"), ("service", .s "A"), ("region", .s "S"),
     ("satisfied", .b true), ("recommend", .b true)],
    [("rid", .n 8), ("date", .s "2025-01-01"), ("service", .s "A"), ("region", .s "N"),
     ("satisfied", .b false), ("recommend", .b true)]]⟩

/-- The result of deduplicating `exampleDupDF` under the fallback key: the
last occurrences of the two distinct keys, in order. -/
def exampleDedupedDF : DF :=
  ⟨["service", "region", "satisfied", "recommend"],
   [[("service", .s "B"), ("region", .s "N"), ("satisfied", .b true), ("recommend", .b true)],
    [("service", .s "A"), ("region", .s "N"), ("satisfied", .b true), ("recommend", .b true)]]⟩

/-- A table missing three of the four required columns. -/
def exampleMissingDF : DF := ⟨["service"], []⟩

/-- A table with a respondent-id column but no date column. -/
def exampleRidOnlyDF : DF :=
  ⟨["rid", "service", "region", "satisfied", "recommend"],
   [[("rid", .n 7), ("service", .s "A"), ("region", .s "N"),
     ("satisfied", .b true), ("recommend", .b true)]]⟩

/-- A table with a date column but no respondent-id column. -/
def exampleDateOnlyDF : DF :=
  ⟨["date", "service", "region", "satisfied", "recommend"],
   [[("date", .s "2025-01-01"), ("service", .s "A"), ("region", .s "N"),
     ("satisfied", .b true), ("recommend", .b true)]]⟩

/-! ## Properties of `keepLast` (`drop_duplicates(keep="last")`) -/

theorem mem_of_mem_keepLast {α κ : Type} [DecidableEq κ] (key : α → κ) :
    ∀ {l : List α} {x : α}, x ∈ keepLast key l → x ∈ l := by
  intro l
  induction l with
  | nil => intro x hx; simp [keepLast] at hx
  | cons r rs ih =>
    intro x hx
    by_cases h : (rs.any fun y => decide (key y = key r)) = true
    · rw [keepLast, if_pos h] at hx
      exact List.mem_cons_of_mem _ (ih hx)
    · rw [keepLast, if_neg h] at hx
      rcases List.mem_cons.mp hx with rfl | hx'
      · exact List.mem_cons_self _ _
      · exact List.mem_cons_of_mem _ (ih hx')

theorem filter_key_cons_pos {α κ : Type} [DecidableEq κ] {key : α → κ} {k : κ} {r : α}
    (l : List α) (h : key r = k) :
    (r :: l).filter (fun x => decide (key x = k)) =
      r :: l.filter (fun x => decide (key x = k)) := by
  simp [List.filter_cons, h]

theorem filter_key_cons_neg {α κ : Type} [DecidableEq κ] {key : α → κ} {k : κ} {r : α}
    (l : List α) (h : ¬ key r = k) :
    (r :: l).filter (fun x => decide (key x = k)) =
      l.filter (fun x => decide (key x = k)) := by
  simp [List.filter_cons, h]

/-- Restricted to any one key value, the output of `keepLast` is exactly the
last input element with that key (when one exists). -/
theorem filter_keepLast {α κ : Type} [DecidableEq κ] (key : α → κ) (k : κ) :
    ∀ l : List α,
      (keepLast key l).filter (fun x => decide (key x = k)) =
        ((l.filter fun x => decide (key x = k)).getLast?).toList := by
  intro l
  induction l with
  | nil => simp [keepLast]
  | cons r rs ih =>
    by_cases hA : (rs.any fun x => decide (key x = key r)) = true
    · rw [keepLast, if_pos hA]
      by_cases hr : key r = k
      · obtain ⟨x, hx, hxk⟩ := List.any_eq_true.mp hA
        have hxk' : key x = k := by rw [of_decide_eq_true hxk, hr]
        have hmem : x ∈ rs.filter (fun y => decide (key y = k)) :=
          List.mem_filter.mpr ⟨hx, decide_eq_true hxk'⟩
        rw [ih, filter_key_cons_pos rs hr]
        cases hfil : rs.filter (fun y => decide (key y = k)) with
        | nil => rw [hfil] at hmem; cases hmem
        | cons y ys => rw [List.getLast?_cons_cons]
      · rw [ih, filter_key_cons_neg rs hr]
    · rw [keepLast, if_neg hA]
      have hnone : ∀ x ∈ rs, key x ≠ key r := by
        intro x hx hcontra
        exact hA (List.any_eq_true.mpr ⟨x, hx, decide_eq_true hcontra⟩)
      by_cases hr : key r = k
      · have hfilrs : rs.filter (fun y => decide (key y = k)) = [] := by
          apply List.filter_eq_nil_iff.mpr
          intro x hx
          simpa using fun hc => hnone x hx (by rw [hc, hr])
        have hfilkeep : (keepLast key rs).filter (fun y => decide (key y = k)) = [] := by
          rw [ih, hfilrs]; rfl
        rw [filter_key_cons_pos (keepLast key rs) hr, hfilkeep,
          filter_key_cons_pos rs hr, hfilrs]
        rfl
      · rw [filter_key_cons_neg (keepLast key rs) hr,
          filter_key_cons_neg rs hr, ih]

theorem keepLast_filter_length_le_one {α κ : Type} [DecidableEq κ] (key : α → κ)
    (k : κ) (l : List α) :
    ((keepLast key l).filter fun x => decide (key x = k)).length ≤ 1 := by
  rw [filter_keepLast]
  cases (l.filter fun x => decide (key x = k)).getLast? <;> simp

/-- A list whose every key value occurs at most once is unchanged by `keepLast`. -/
theorem keepLast_eq_self {α κ : Type} [DecidableEq κ] (key : α → κ) :
    ∀ l : List α, (∀ k, ((l.filter fun x => decide (key x = k)).length ≤ 1)) →
      keepLast key l = l := by
  intro l
  induction l with
  | nil => intro _; rfl
  | cons r rs ih =>
    intro h
    have hA : (rs.any fun x => decide (key x = key r)) = false := by
      cases hA : (rs.any fun x => decide (key x = key r)) with
      | false => rfl
      | true =>
        exfalso
        obtain ⟨x, hx, hxk⟩ := List.any_eq_true.mp hA
        have hmem : x ∈ rs.filter (fun y => decide (key y = key r)) :=
          List.mem_filter.mpr ⟨hx, hxk⟩
        have hlen := h (key r)
        rw [filter_key_cons_pos rs rfl] at hlen
        cases hfil : rs.filter (fun y => decide (key y = key r)) with
        | nil => rw [hfil] at hmem; cases hmem
        | cons y ys => rw [hfil] at hlen; simp at hlen
    rw [keepLast, if_neg (by simp [hA])]
    congr 1
    apply ih
    intro k
    calc ((rs.filter fun x => decide (key x = k)).length)
        ≤ (((r :: rs).filter fun x => decide (key x = k)).length) :=
          ((List.sublist_cons_self r rs).filter _).length_le
      _ ≤ 1 := h k

theorem keepLast_idem {α κ : Type} [DecidableEq κ] (key : α → κ) (l : List α) :
    keepLast key (keepLast key l) = keepLast key l :=
  keepLast_eq_self key _ (fun k => keepLast_filter_length_le_one key k l)

/-- Unpacking a successful `drop_duplicates`. -/
theorem drop_duplicates_ok {df d : DF} {s : List String}
    (h : drop_duplicates df s = .ok d) :
    d.cols = df.cols ∧ d.rows = keepLast (rowKey s) df.rows ∧
      (s.all fun c => decide (c ∈ df.cols)) = true := by
  by_cases hc : (s.all fun c => decide (c ∈ df.cols)) = true
  · rw [drop_duplicates, if_pos hc] at h
    injection h with h2
    rw [← h2]
    exact ⟨rfl, rfl, hc⟩
  · rw [drop_duplicates, if_neg hc] at h
    cases h

/-! ## Claims about the normalizer and the KPI engine -/

/-- C1 (code bug): on the spec's own scenario column ["yes","1","1.0","maybe"]
— and on every other input — `_normalize_yes_no` maps no value at all: it
raises `AttributeError`, because processing.py line 57 spells `pd.Na` where the
function's own comments document `pd.NA`, so the `YES`/`NO` masking the claim
describes never executes.  The last conjuncts record, on the actually-evaluated
set constants of lines 16-17, that "1" and "0" are members while "1.0" and
"0.0" are not: even under the documented `pd.NA` masking, "1.0" would normalize
to unknown, not to true as the claim's yes-set says. -/
theorem C1_normalize_raises :
    _normalize_yes_no [Val.s "yes", Val.s "1", Val.s "1.0", Val.s "maybe"] =
      .error (.attributeError "module pandas has no attribute Na")
  ∧ "1" ∈ YES ∧ "0" ∈ NO ∧ "1.0" ∉ YES ∧ "1.0" ∉ NO ∧ "0.0" ∉ YES ∧ "0.0" ∉ NO := by
  decide

/-- C4 (code bug): cleaning a well-formed one-row table does not return a
normalized table at all — `clean_df` raises `AttributeError`, because
processing.py line 57 spells `pd.Na` (its own comments document `pd.NA`), and
line 103 dereferences `.srt` where line 104 spells `.str`; the claimed
invariants of the cleaned table are unattainable since no table is returned. -/
theorem C4_clean_crashes :
    clean_df exampleDF exampleCM =
      .error (.attributeError "module pandas has no attribute Na") := by decide

/-- C5 (code bug): on every table with at least one row, `compute_kpis` does
not return the rates — the `KPIResult` construction at kpis.py lines 36-42
raises `TypeError`, because the keywords `total_responses` and
`recommmendation_rate` match no field of the dataclass declared at
lines 15-21 (`total_reponses`, `recommendation_rate`). -/
theorem C5_kpis_raise_on_nonempty (df : DF) (cm : ColumnMap) (h : df.rows ≠ []) :
    compute_kpis df cm =
      .error (.typeError "KPIResult got an unexpected keyword argument total_responses") := by
  unfold compute_kpis
  rw [if_neg (fun hc => h (List.length_eq_zero.mp hc))]

theorem C5_witness :
    compute_kpis exampleDF exampleCM =
      .error (.typeError "KPIResult got an unexpected keyword argument total_responses") :=
  C5_kpis_raise_on_nonempty exampleDF exampleCM (by decide)

/-- C6 (confirmed): on the zero-row batch table, `compute_kpis` returns —
without raising — a `KPIResult` with total 0 and the satisfaction rate,
recommendation rate, most-used service and top region all undefined
(kpis.py lines 26-27, which construct the result positionally and are the
one path not affected by the keyword misspellings of lines 36-42). -/
theorem C6_kpis_empty_batch (cols : List String) (cm : ColumnMap) :
    compute_kpis ⟨cols, []⟩ cm = .ok ⟨0, none, none, none, none⟩ := rfl

/-! ## Claims about the deduplicator -/

/-- C2 (confirmed): `dedupe_df` selects the identity key by priority —
(respondent-id, date) when both are configured and present, respondent-id
alone when only it is, else (date if configured and present, service, region,
satisfied, recommend) — and, among rows sharing a key, the surviving row is
exactly the last occurrence in input order, so its field values are those of
the row appearing later. -/
theorem C2_dedupe_key_priority_last_wins :
    (∀ (df : DF) (cm : ColumnMap) (rid d : String),
        cm.respondent_id_col = some rid → rid ≠ "" → rid ∈ df.cols →
        cm.date_col = some d → d ≠ "" → d ∈ df.cols →
        dedupe_df df cm = drop_duplicates df [rid, d])
  ∧ (∀ (df : DF) (cm : ColumnMap) (rid : String),
        cm.respondent_id_col = some rid → rid ≠ "" → rid ∈ df.cols →
        (∀ d, cm.date_col = some d → d = "" ∨ d ∉ df.cols) →
        dedupe_df df cm = drop_duplicates df [rid])
  ∧ (∀ (df : DF) (cm : ColumnMap) (d : String),
        (∀ rid, cm.respondent_id_col = some rid → rid = "" ∨ rid ∉ df.cols) →
        cm.date_col = some d → d ≠ "" → d ∈ df.cols →
        dedupe_df df cm = drop_duplicates df
          [d, cm.service_col, cm.region_col, cm.satisfied_col, cm.recommend_col])
  ∧ (∀ (df : DF) (cm : ColumnMap),
        (∀ rid, cm.respondent_id_col = some rid → rid = "" ∨ rid ∉ df.cols) →
        (∀ d, cm.date_col = some d → d = "" ∨ d ∉ df.cols) →
        dedupe_df df cm = drop_duplicates df
          [cm.service_col, cm.region_col, cm.satisfied_col, cm.recommend_col])
  ∧ (∀ (df dd : DF) (subset : List String) (k : List (Option Val)),
        drop_duplicates df subset = .ok dd →
        (dd.rows.filter fun r => decide (rowKey subset r = k)) =
          ((df.rows.filter fun r => decide (rowKey subset r = k)).getLast?).toList) := by
  refine ⟨?_, ?_, ?_, ?_, ?_⟩
  · intro df cm rid d h1 h2 h3 h4 h5 h6
    simp [dedupe_df, dedupeSubset, h1, h2, h3, h4, h5, h6]
  · intro df cm rid h1 h2 h3 hnd
    cases hd : cm.date_col with
    | none => simp [dedupe_df, dedupeSubset, h1, h2, h3, hd]
    | some d =>
      rcases hnd d hd with h | h <;>
        simp [dedupe_df, dedupeSubset, h1, h2, h3, hd, h]
  · intro df cm d hnr h4 h5 h6
    cases hr : cm.respondent_id_col with
    | none => simp [dedupe_df, dedupeSubset, fallback_subset, hr, h4, h5, h6]
    | some rid =>
      rcases hnr rid hr with h | h <;>
        simp [dedupe_df, dedupeSubset, fallback_subset, hr, h4, h5, h6, h]
  · intro df cm hnr hnd
    cases hr : cm.respondent_id_col with
    | none =>
      cases hd : cm.date_col with
      | none => simp [dedupe_df, dedupeSubset, fallback_subset, hr, hd]
      | some d =>
        rcases hnd d hd with h | h <;>
          simp [dedupe_df, dedupeSubset, fallback_subset, hr, hd, h]
    | some rid =>
      rcases hnr rid hr with h | h <;>
        cases hd : cm.date_col with
        | none => simp [dedupe_df, dedupeSubset, fallback_subset, hr, hd, h]
        | some d =>
          rcases hnd d hd with h2 | h2 <;>
            simp [dedupe_df, dedupeSubset, fallback_subset, hr, hd, h, h2]
  · intro df dd subset k h
    obtain ⟨_, hrows, _⟩ := drop_duplicates_ok h
    rw [hrows]
    exact filter_keepLast (rowKey subset) k df.rows

theorem C2_witness :
    dedupe_df exampleRidDF exampleCM2 = drop_duplicates exampleRidDF ["rid", "date"]
  ∧ dedupe_df exampleRidOnlyDF exampleCM2 = drop_duplicates exampleRidOnlyDF ["rid"]
  ∧ dedupe_df exampleDateOnlyDF exampleCM2 = drop_duplicates exampleDateOnlyDF
      ["date", "service", "region", "satisfied", "recommend"]
  ∧ dedupe_df exampleDF exampleCM = drop_duplicates exampleDF
      ["service", "region", "satisfied", "recommend"]
  ∧ (exampleDedupedDF.rows.filter fun r =>
        decide (rowKey ["service", "region", "satisfied", "recommend"] r =
          [some (.s "A"), some (.s "N"), some (.b true), some (.b true)])) =
      ((exampleDupDF.rows.filter fun r =>
        decide (rowKey ["service", "region", "satisfied", "recommend"] r =
          [some (.s "A"), some (.s "N"), some (.b true), some (.b true)])).getLast?).toList := by
  refine ⟨?_, ?_, ?_, ?_, ?_⟩
  · exact C2_dedupe_key_priority_last_wins.1 exampleRidDF exampleCM2 "rid" "date"
      rfl (by decide) (by decide) rfl (by decide) (by decide)
  · exact C2_dedupe_key_priority_last_wins.2.1 exampleRidOnlyDF exampleCM2 "rid"
      rfl (by decide) (by decide)
      (by intro d hd; injection hd with h; right; rw [← h]; decide)
  · exact C2_dedupe_key_priority_last_wins.2.2.1 exampleDateOnlyDF exampleCM2 "date"
      (by intro rid hr; injection hr with h; right; rw [← h]; decide)
      rfl (by decide) (by decide)
  · exact C2_dedupe_key_priority_last_wins.2.2.2.1 exampleDF exampleCM
      (by intro rid hr; cases hr) (by intro d hd; cases hd)
  · exact C2_dedupe_key_priority_last_wins.2.2.2.2 exampleDupDF exampleDedupedDF
      ["service", "region", "satisfied", "recommend"]
      [some (.s "A"), some (.s "N"), some (.b true), some (.b true)]
      (by decide)

/-- C7 (confirmed): deduplication is idempotent — applying `dedupe_df` with
the same column map to a table it has already produced returns that very
table (the key columns are preserved, so the same key is selected, and every
key value now occurs at most once). -/
theorem C7_dedupe_idempotent (df : DF) (cm : ColumnMap) (d : DF)
    (h : dedupe_df df cm = .ok d) : dedupe_df d cm = .ok d := by
  obtain ⟨dc, dr⟩ := d
  obtain ⟨hcols, hrows, hall⟩ := drop_duplicates_ok (s := dedupeSubset cm df.cols) h
  simp only at hcols hrows
  subst hcols
  subst hrows
  unfold dedupe_df drop_duplicates
  simp only
  rw [if_pos hall, keepLast_idem]

theorem C7_witness : dedupe_df exampleDedupedDF exampleCM = .ok exampleDedupedDF :=
  C7_dedupe_idempotent exampleDupDF exampleCM exampleDedupedDF (by decide)

/-! ## Claims about validation and the fatal path of the orchestrator -/

/-- C3 (confirmed): `_validate_columns` succeeds exactly when all four
required semantic columns are present; when it fails, the error reports
exactly the absent required columns and the available columns.  The failure
propagates through `clean_df` and `process_files`, and a processing-stage
error makes `run_pipeline` terminate with ok=false, status "fatal", a FAILED
health record carrying the error message, and no report artifact written
(the world is unchanged except for the health record). -/
theorem C3_validate_columns_fatal :
    (∀ (df : DF) (cm : ColumnMap),
        _validate_columns df cm = .ok () ↔ ∀ c ∈ required_cols cm, c ∈ df.cols)
  ∧ (∀ (df : DF) (cm : ColumnMap),
        (∃ e, _validate_columns df cm = .error e) ↔ ∃ c ∈ required_cols cm, c ∉ df.cols)
  ∧ (∀ (df : DF) (cm : ColumnMap) (m a : List String),
        _validate_columns df cm = .error (.missingColumns m a) →
        a = df.cols ∧ ∀ c, (c ∈ m ↔ c ∈ required_cols cm ∧ c ∉ df.cols))
  ∧ (∀ (df : DF) (cm : ColumnMap) (e : PyErr),
        _validate_columns df cm = .error e → clean_df df cm = .error e)
  ∧ (∀ (nm : String) (df : DF) (rest : List (String × DF)) (cm : ColumnMap) (e : PyErr),
        clean_df df cm = .error e → process_files ((nm, df) :: rest) cm = .error e)
  ∧ (∀ (cm : ColumnMap) (basename : String) (wc wk : Bool)
        (files : List (String × String)) (e : PyErr) (stamp : String)
        (notifyRes : Except String Unit) (dry : Bool) (w : World),
        files ≠ [] →
        run_pipeline cm basename wc wk files (.error e) stamp notifyRes dry w =
          ({ w with
              health := some ⟨false, "Fatal process error: " ++ pyErrMsg e⟩ },
           .ok ⟨false, "fatal", "Fatal process error: " ++ pyErrMsg e,
                files.length, 0, none, none, none, none⟩)) := by
  refine ⟨?_, ?_, ?_, ?_, ?_, ?_⟩
  · intro df cm
    by_cases hm : ((required_cols cm).filter fun c => decide (c ∉ df.cols)).isEmpty = true
    · rw [_validate_columns, if_pos hm]
      rw [List.isEmpty_iff] at hm
      constructor
      · intro _ c hc
        by_contra hnot
        have hmem : c ∈ (required_cols cm).filter fun c => decide (c ∉ df.cols) :=
          List.mem_filter.mpr ⟨hc, decide_eq_true hnot⟩
        rw [hm] at hmem
        cases hmem
      · intro _; rfl
    · rw [_validate_columns, if_neg hm]
      constructor
      · intro h; cases h
      · intro hall
        exfalso
        apply hm
        rw [List.isEmpty_iff]
        apply List.filter_eq_nil_iff.mpr
        intro c hc
        simpa using hall c hc
  · intro df cm
    by_cases hm : ((required_cols cm).filter fun c => decide (c ∉ df.cols)).isEmpty = true
    · rw [_validate_columns, if_pos hm]
      rw [List.isEmpty_iff] at hm
      constructor
      · intro ⟨e, he⟩; cases he
      · intro ⟨c, hc, hnot⟩
        exfalso
        have hmem : c ∈ (required_cols cm).filter fun c => decide (c ∉ df.cols) :=
          List.mem_filter.mpr ⟨hc, decide_eq_true hnot⟩
        rw [hm] at hmem
        cases hmem
    · rw [_validate_columns, if_neg hm]
      constructor
      · intro _
        have hne : ((required_cols cm).filter fun c => decide (c ∉ df.cols)) ≠ [] := by
          intro hc; exact hm (by rw [List.isEmpty_iff]; exact hc)
        obtain ⟨c, hc⟩ := List.exists_mem_of_ne_nil _ hne
        obtain ⟨hcr, hcd⟩ := List.mem_filter.mp hc
        exact ⟨c, hcr, of_decide_eq_true hcd⟩
      · intro _; exact ⟨_, rfl⟩
  · intro df cm m a h
    by_cases hm : ((required_cols cm).filter fun c => decide (c ∉ df.cols)).isEmpty = true
    · rw [_validate_columns, if_pos hm] at h; cases h
    · rw [_validate_columns, if_neg hm] at h
      injection h with h2
      injection h2 with h3 h4
      refine ⟨h4.symm, fun c => ?_⟩
      rw [← h3]
      simp [List.mem_filter]
  · intro df cm e h
    unfold clean_df
    rw [h]
    rfl
  · intro nm df rest cm e h
    unfold process_files processEach
    rw [h]
    rfl
  · intro cm basename wc wk files e stamp notifyRes dry w hne
    cases files with
    | nil => exact absurd rfl hne
    | cons f fs => rfl

theorem C3_witness :
    _validate_columns exampleDF exampleCM = .ok ()
  ∧ (∃ e, _validate_columns exampleMissingDF exampleCM = .error e)
  ∧ (["service"] = exampleMissingDF.cols ∧
      ∀ c, (c ∈ ["region", "satisfied", "recommend"] ↔
        c ∈ required_cols exampleCM ∧ c ∉ exampleMissingDF.cols))
  ∧ clean_df exampleMissingDF exampleCM =
      .error (.missingColumns ["region", "satisfied", "recommend"] ["service"])
  ∧ process_files [("bad.csv", exampleMissingDF)] exampleCM =
      .error (.missingColumns ["region", "satisfied", "recommend"] ["service"])
  ∧ run_pipeline exampleCM "weekly" true true [("bad.csv", "x")]
      (.error (.missingColumns ["region", "satisfied", "recommend"] ["service"]))
      "S" (.ok ()) false ⟨none, [], []⟩ =
      ({ (⟨none, [], []⟩ : World) with
          health := some ⟨false, "Fatal process error: " ++
            pyErrMsg (.missingColumns ["region", "satisfied", "recommend"] ["service"])⟩ },
       .ok ⟨false, "fatal",
            "Fatal process error: " ++
              pyErrMsg (.missingColumns ["region", "satisfied", "recommend"] ["service"]),
            1, 0, none, none, none, none⟩) := by
  refine ⟨?_, ?_, ?_, ?_, ?_, ?_⟩
  · exact (C3_validate_columns_fatal.1 exampleDF exampleCM).mpr (by decide)
  · exact (C3_validate_columns_fatal.2.1 exampleMissingDF exampleCM).mpr
      ⟨"region", by decide, by decide⟩
  · exact C3_validate_columns_fatal.2.2.1 exampleMissingDF exampleCM
      ["region", "satisfied", "recommend"] ["service"] (by decide)
  · exact C3_validate_columns_fatal.2.2.2.1 exampleMissingDF exampleCM
      (.missingColumns ["region", "satisfied", "recommend"] ["service"]) (by decide)
  · exact C3_validate_columns_fatal.2.2.2.2.1 "bad.csv" exampleMissingDF [] exampleCM
      (.missingColumns ["region", "satisfied", "recommend"] ["service"]) (by decide)
  · exact C3_validate_columns_fatal.2.2.2.2.2 exampleCM "weekly" true true
      [("bad.csv", "x")] (.missingColumns ["region", "satisfied", "recommend"] ["service"])
      "S" (.ok ()) false ⟨none, [], []⟩ (by decide)

/-! ## Claims about the report writer, notification handling and file moves -/

theorem moveAll_written (files : List (String × String)) (dry : Bool) :
    ∀ w : World, (moveAll files dry w).written = w.written := by
  induction files with
  | nil => intro w; rfl
  | cons f fs ih => intro w; rw [moveAll, ih]

theorem moveAll_health (files : List (String × String)) (dry : Bool) :
    ∀ w : World, (moveAll files dry w).health = w.health := by
  induction files with
  | nil => intro w; rfl
  | cons f fs ih => intro w; rw [moveAll, ih]

/-- C9 (confirmed): one call of the report writer shares a single run stamp
across everything it produces — the file-summary export is always written,
the cleaned-data and KPI exports exactly when their switches are set, each
file named `{basename}_{kind}_{stamp}` (with its format extension), the
returned artifacts carry that stamp, and the files written are exactly the
returned artifact paths; nothing else in the world changes. -/
theorem C9_single_stamp_shared (stamp basename : String) (combined : DF)
    (summaries : List FileSummary) (kpis : KPIResult) (wc wk : Bool) (w : World) :
    ((write_reports stamp basename combined summaries kpis wc wk w).2.run_stamp = stamp)
  ∧ ((write_reports stamp basename combined summaries kpis wc wk w).2.file_summary_csv =
        basename ++ "_file_summary_" ++ stamp ++ ".csv")
  ∧ ((write_reports stamp basename combined summaries kpis wc wk w).2.cleaned_csv =
        if wc then some (basename ++ "_cleaned_" ++ stamp ++ ".csv") else none)
  ∧ ((write_reports stamp basename combined summaries kpis wc wk w).2.kpi_json =
        if wk then some (basename ++ "_kpis_" ++ stamp ++ ".json") else none)
  ∧ ((write_reports stamp basename combined summaries kpis wc wk w).1.written =
        w.written
          ++ [(write_reports stamp basename combined summaries kpis wc wk w).2.file_summary_csv]
          ++ (write_reports stamp basename combined summaries kpis wc wk w).2.cleaned_csv.toList
          ++ (write_reports stamp basename combined summaries kpis wc wk w).2.kpi_json.toList)
  ∧ ((write_reports stamp basename combined summaries kpis wc wk w).1.health = w.health)
  ∧ ((write_reports stamp basename combined summaries kpis wc wk w).1.processedDir =
        w.processedDir) := by
  cases wc <;> cases wk <;> simp [write_reports]

/-- C8 (confirmed): when the notification send raises after the reports are
written, `run_pipeline` overwrites the health record with FAILED plus the
error, yet still returns ok=true with status "ok" and the artifact
references — the notification failure is reported, not propagated. -/
theorem C8_notify_failure_reported (cm : ColumnMap) (basename : String) (wc wk : Bool)
    (files : List (String × String)) (pr : ProcessResult) (k : KPIResult)
    (stamp e : String) (dry : Bool) (w : World)
    (hne : files ≠ []) (hkpi : compute_kpis pr.combined cm = .ok k) :
    run_pipeline cm basename wc wk files (.ok pr) stamp (.error e) dry w =
      ({ health := some ⟨false, "Run OK but email failed: " ++ e⟩,
         written := w.written
           ++ [basename ++ "_file_summary_" ++ stamp ++ ".csv"]
           ++ (if wc then [basename ++ "_cleaned_" ++ stamp ++ ".csv"] else [])
           ++ (if wk then [basename ++ "_kpis_" ++ stamp ++ ".json"] else []),
         processedDir := (moveAll files dry w).processedDir },
       .ok ⟨true, "ok", "Run completed successfully.", files.length, files.length,
            some stamp,
            (if wc then some (basename ++ "_cleaned_" ++ stamp ++ ".csv") else none),
            (if wk then some (basename ++ "_kpis_" ++ stamp ++ ".json") else none),
            some (basename ++ "_file_summary_" ++ stamp ++ ".csv")⟩) := by
  cases files with
  | nil => exact absurd rfl hne
  | cons f fs =>
    simp only [run_pipeline]
    rw [hkpi]
    cases wc <;> cases wk <;>
      simp [write_reports, write_health_file, moveAll_written, Prod.mk.injEq, World.mk.injEq]

theorem C8_witness :
    run_pipeline exampleCM "weekly" true true [("a.csv", "x")]
      (.ok ⟨⟨[], []⟩, []⟩) "S" (.error "SMTP down") false ⟨none, [], []⟩ =
      ({ health := some ⟨false, "Run OK but email failed: SMTP down"⟩,
         written := ([] : List String)
           ++ ["weekly_file_summary_S.csv"]
           ++ (if true then ["weekly_cleaned_S.csv"] else [])
           ++ (if true then ["weekly_kpis_S.json"] else []),
         processedDir := (moveAll [("a.csv", "x")] false ⟨none, [], []⟩).processedDir },
       .ok ⟨true, "ok", "Run completed successfully.", 1, 1,
            some "S",
            (if true then some "weekly_cleaned_S.csv" else none),
            (if true then some "weekly_kpis_S.json" else none),
            some "weekly_file_summary_S.csv"⟩) :=
  C8_notify_failure_reported exampleCM "weekly" true true [("a.csv", "x")]
    ⟨⟨[], []⟩, []⟩ ⟨0, none, none, none, none⟩ "S" "SMTP down" false ⟨none, [], []⟩
    (by decide) rfl

theorem splitStemSuffix_append (n : String) :
    (splitStemSuffix n).1 ++ (splitStemSuffix n).2 = n := by
  unfold splitStemSuffix
  cases hopt : lastDotIdx n.toList with
  | none => simp
  | some i =>
    show ((if 0 < i ∧ i < n.toList.length - 1
           then ((⟨n.toList.take i⟩ : String), (⟨n.toList.drop i⟩ : String))
           else (n, "")).1 ++
          (if 0 < i ∧ i < n.toList.length - 1
           then ((⟨n.toList.take i⟩ : String), (⟨n.toList.drop i⟩ : String))
           else (n, "")).2) = n
    by_cases hi : 0 < i ∧ i < n.toList.length - 1
    · rw [if_pos hi]
      show String.mk (n.toList.take i ++ n.toList.drop i) = n
      rw [List.take_append_drop]
      rfl
    · rw [if_neg hi]
      simp

theorem dup_name_ne (n : String) :
    n ≠ (splitStemSuffix n).1 ++ "__dup" ++ (splitStemSuffix n).2 := by
  intro h
  have h2 := congrArg String.length (splitStemSuffix_append n)
  have h3 := congrArg String.length h
  have h5 : ("__dup" : String).length = 5 := rfl
  simp only [String.length_append, h5] at h2 h3
  omega

theorem lookup_move_preserved {dest c a : String} (hne : a ≠ dest) :
    ∀ dir : List (String × String),
      ((dir.filter fun e => decide (e.1 ≠ dest)) ++ [(dest, c)]).lookup a = dir.lookup a := by
  intro dir
  induction dir with
  | nil => simp [List.lookup, beq_false_of_ne hne]
  | cons e es ih =>
    obtain ⟨k, v⟩ := e
    rw [List.filter_cons]
    by_cases hk : k = dest
    · subst hk
      rw [if_neg (by simp)]
      rw [ih]
      simp [List.lookup, beq_false_of_ne hne]
    · rw [if_pos (by simp [hk])]
      by_cases ha : a = k
      · subst ha
        simp [List.lookup]
      · rw [List.cons_append]
        simp only [List.lookup, beq_false_of_ne ha]
        exact ih

/-- C10 (confirmed): when a file with the same name already exists in the
destination directory, `_move_file` moves the source under the alternate name
`{stem}__dup{suffix}` instead, and the already-existing entry under the
original name is left unchanged (the alternate name is strictly longer than
the original, so it can never collide with it). -/
theorem C10_move_dup_on_collision (srcName srcContent : String)
    (dir : List (String × String)) (h : (dir.lookup srcName).isSome = true) :
    (_move_file srcName srcContent dir false).2 =
        (splitStemSuffix srcName).1 ++ "__dup" ++ (splitStemSuffix srcName).2
  ∧ ((_move_file srcName srcContent dir false).1).lookup srcName = dir.lookup srcName := by
  unfold _move_file
  rw [if_pos h]
  exact ⟨rfl, lookup_move_preserved (dup_name_ne srcName) dir⟩

theorem C10_witness :
    (_move_file "data.csv" "new" [("data.csv", "old")] false).2 =
        (splitStemSuffix "data.csv").1 ++ "__dup" ++ (splitStemSuffix "data.csv").2
  ∧ ((_move_file "data.csv" "new" [("data.csv", "old")] false).1).lookup "data.csv" =
      ([("data.csv", "old")] : List (String × String)).lookup "data.csv" :=
  C10_move_dup_on_collision "data.csv" "new" [("data.csv", "old")] (by decide)

end WeeklyReport

